import Mathlib

/-
Verification of the GitNexus ingestion-to-query core against its specification.

Strings are modelled as lists of UTF-16 code units (`List Nat`), because the
source is JavaScript/TypeScript: `String.prototype.replace` with a non-unicode
regex, `charCodeAt`, `slice` and `length` all operate on UTF-16 code units,
not on code points.  String constants from the source appear as code-unit
lists with the original text in a comment.
-/

namespace GitNexus

/-! ## Content Extraction & CSV Serializer (src/core/kuzu/csv-generator.ts) -/

/-- First regex class of `sanitizeUTF8`: `[\x00-\x08\x0B\x0C\x0E-\x1F\x7F]`
(control characters except tab 0x09, newline 0x0A, carriage return 0x0D). -/
def isStrippedControl (c : Nat) : Bool :=
  c ≤ 8 || c == 11 || c == 12 || (14 ≤ c && c ≤ 31) || c == 127

/-- Second regex class of `sanitizeUTF8`: `[\uD800-\uDFFF]`.  The regex has no
`u` flag, so it matches every individual surrogate code unit, whether or not
it is half of a well-formed surrogate pair. -/
def isSurrogateCodeUnit (c : Nat) : Bool :=
  55296 ≤ c && c ≤ 57343

/-- Third regex class of `sanitizeUTF8`: `[￾￿]`. -/
def isNoncharFFFE (c : Nat) : Bool :=
  c == 65534 || c == 65535

/-- `sanitizeUTF8` from csv-generator.ts: three successive
`.replace(/class/g, '')` calls.  Replacing every match of a one-code-unit
character class by the empty string is exactly filtering those code units
out, so each `replace` is a `List.filter`. -/
def sanitizeUTF8 (s : List Nat) : List Nat :=
  ((s.filter (fun c => !isStrippedControl c)).filter
      (fun c => !isSurrogateCodeUnit c)).filter
    (fun c => !isNoncharFFFE c)

/-- The union of the three classes removed by `sanitizeUTF8`. -/
def removedBySanitize (c : Nat) : Bool :=
  isStrippedControl c || isSurrogateCodeUnit c || isNoncharFFFE c

/-- `str.replace(/"/g, '""')` from `escapeCSVField`: every double quote
(code 34) is doubled. -/
def escapeQuotesDoubled : List Nat → List Nat
  | [] => []
  | c :: t => (if c = 34 then [34, 34] else [c]) ++ escapeQuotesDoubled t

/-- `escapeCSVField` from csv-generator.ts, restricted to string and
absent (undefined/null) inputs; `none` models both `undefined` and `null`,
which serialize to `'""'`.  A string is sanitized and then wrapped in double
quotes with embedded double quotes doubled. -/
def escapeCSVField : Option (List Nat) → List Nat
  | none => [34, 34]
  | some s => 34 :: (escapeQuotesDoubled (sanitizeUTF8 s) ++ [34])

/-- Modelled from the spec: the quoted-field grammar of a standard RFC 4180
parser, reading the remainder of a field after the opening quote.  A `34`
followed by the end of the field closes it; a doubled `34 34` stands for one
literal quote; a closing quote followed by trailing text makes the standalone
field malformed (`none`). -/
def unquoteRFC4180 : List Nat → Option (List Nat)
  | [] => none
  | c :: rest =>
    if c = 34 then
      match rest with
      | [] => some []
      | d :: rest2 =>
        if d = 34 then (unquoteRFC4180 rest2).map (fun l => 34 :: l)
        else none
    else (unquoteRFC4180 rest).map (fun l => c :: l)

/-- Modelled from the spec: a standard RFC 4180 parser applied to one
always-quoted field: the field must open with a double quote and the rest is
read by `unquoteRFC4180`. -/
def parseCSVField : List Nat → Option (List Nat)
  | [] => none
  | c :: rest => if c = 34 then unquoteRFC4180 rest else none

/-- The character predicate counted by `isBinaryContent`:
`(code < 9) || (code > 13 && code < 32) || code === 127`. -/
def isNonPrintable (c : Nat) : Bool :=
  c < 9 || (13 < c && c < 32) || c == 127

/-- `isBinaryContent` from csv-generator.ts.  The source compares the IEEE
double `nonPrintable / sample.length > 0.1`; with `nonPrintable` and
`sample.length` both at most 1000 the exact rational `n / len` differs from
`1/10` by at least `1/10000` whenever it differs at all, far more than the
rounding error of the double computation, so the float comparison agrees with
the exact rational comparison used here on every input. -/
def isBinaryContent (content : List Nat) : Bool :=
  if content.length = 0 then false
  else
    let sample := content.take 1000
    let nonPrintable := (sample.filter isNonPrintable).length
    decide ((nonPrintable : ℚ) / (sample.length : ℚ) > (1 : ℚ) / 10)

/-- Node labels.  In the source the label is a string; `extractContent` only
compares it against `'Folder'` and `'File'`, so the remaining labels are
represented by the other constructors (with `Other` for anything else). -/
inductive NodeLabel
  | File
  | Folder
  | Function
  | Class
  | Method
  | Other
deriving DecidableEq

/-- The fields of `GraphNode` used by the serializer: `id`, `label`, and the
`name`, `filePath`, `startLine`, `endLine` properties. -/
structure GraphNode where
  id : List Nat
  label : NodeLabel
  name : Option (List Nat)
  filePath : Option (List Nat)
  startLine : Option Int
  endLine : Option Int

/-- The truncation marker `'\n... [truncated]'` (16 code units). -/
def truncationMarker : List Nat :=
  [10, 46, 46, 46, 32, 91, 116, 114, 117, 110, 99, 97, 116, 101, 100, 93]

/-- The placeholder `'[Binary file - content not stored]'`. -/
def binaryPlaceholder : List Nat :=
  [91, 66, 105, 110, 97, 114, 121, 32, 102, 105, 108, 101, 32, 45, 32, 99,
   111, 110, 116, 101, 110, 116, 32, 110, 111, 116, 32, 115, 116, 111, 114,
   101, 100, 93]

/-- JavaScript `content.split('\n')`: splitting on newline (code 10); the
empty string splits to one empty piece, and the result is always nonempty. -/
def splitNL : List Nat → List (List Nat)
  | [] => [[]]
  | c :: rest =>
    match splitNL rest with
    | [] => []
    | h :: t => if c = 10 then [] :: h :: t else (c :: h) :: t

/-- JavaScript `lines.join('\n')`. -/
def joinNL : List (List Nat) → List Nat
  | [] => []
  | [l] => l
  | l :: ls => l ++ 10 :: joinNL ls

/-- JavaScript `Array.prototype.slice(s, e)` with possibly negative or
out-of-range `Int` indices: negative indices count from the end, and both
indices are clamped to `[0, length]`. -/
def jsSlice {α : Type} (l : List α) (s e : Int) : List α :=
  let len : Int := l.length
  let s' : Int := if s < 0 then max (len + s) 0 else min s len
  let e' : Int := if e < 0 then max (len + e) 0 else min e len
  (l.take e'.toNat).drop s'.toNat

/-- `extractContent` from csv-generator.ts.  `fileContents.get(filePath)` is
`node.filePath.bind fileContents`; the JS falsy test `if (!content)` is true
both for a missing entry and for the empty string, hence the extra
`content = []` test. -/
def extractContent (node : GraphNode) (fileContents : List Nat → Option (List Nat)) :
    List Nat :=
  match node.filePath.bind fileContents with
  | none => []
  | some content =>
    if content = [] then []
    else if node.label = NodeLabel.Folder then []
    else if isBinaryContent content then binaryPlaceholder
    else if node.label = NodeLabel.File then
      if content.length > 10000 then content.take 10000 ++ truncationMarker
      else content
    else
      match node.startLine, node.endLine with
      | some startLine, some endLine =>
        let lines := splitNL content
        let start : Int := max 0 (startLine - 2)
        let stop : Int := min ((lines.length : Int) - 1) (endLine + 2)
        let snippet := joinNL (jsSlice lines start (stop + 1))
        if snippet.length > 5000 then snippet.take 5000 ++ truncationMarker
        else snippet
      | _, _ => []

/-- Modelled from the spec: the snippet for a code-element node, "the file's
lines from index startLine-2 through endLine+2, clamped to the file's line
bounds, joined by newlines". -/
def snippetSpec (content : List Nat) (startLine endLine : Int) : List Nat :=
  let lines := splitNL content
  joinNL (jsSlice lines (max 0 (startLine - 2))
    (min ((lines.length : Int) - 1) (endLine + 2) + 1))

/-- Modelled from the spec: "if that snippet exceeds `limit` characters it is
truncated to `limit` characters with the truncation marker appended". -/
def truncateWithMarker (limit : Nat) (s : List Nat) : List Nat :=
  if s.length > limit then s.take limit ++ truncationMarker else s

/-! ## Graph Engine Adapter (src/core/kuzu/kuzu-adapter.ts)

The adapter talks to an external WASM engine through asynchronous, fallible
calls.  The engine's behaviour at each call site is an oracle supplied as an
explicit argument (a flag or outcome value); the adapter functions below are
the source's control flow over those oracles, with thrown exceptions as
`Except.error` and side effects that the claims mention (closing a prepared
statement, the state of the module-level handles) made explicit. -/

/-- Outcome of `conn.prepare`: the `isSuccess()` flag and, on failure, the
`getErrorMessage()` diagnostic. -/
structure PrepareOutcome where
  isSuccess : Bool
  errorMessage : List Nat

/-- Outcome of `conn.execute` together with draining the result cursor
(`hasNext`/`getNext`): either the drained rows or a thrown error. -/
inductive ExecOutcome
  | ok (rows : List (List Nat))
  | raise (msg : List Nat)

/-- The message of the error thrown on preparation failure:
`'Prepare failed: '` followed by the engine's diagnostic. -/
def prepareFailedMsg (diag : List Nat) : List Nat :=
  [80, 114, 101, 112, 97, 114, 101, 32, 102, 97, 105, 108, 101, 100, 58, 32]
    ++ diag

/-- `executePrepared` from kuzu-adapter.ts.  First component: the returned
rows or the propagated error (the `catch` logs and rethrows).  Second
component: whether `stmt.close()` was reached.  In the source the only
`stmt.close()` sits between the result-draining loop and the `return`, with
no `finally`, so it is reached only when preparation, execution and draining
all succeed. -/
def executePrepared (prep : PrepareOutcome) (exec : ExecOutcome) :
    Except (List Nat) (List (List Nat)) × Bool :=
  if prep.isSuccess = false then
    (Except.error (prepareFailedMsg prep.errorMessage), false)
  else
    match exec with
    | ExecOutcome.raise m => (Except.error m, false)
    | ExecOutcome.ok rows => (Except.ok rows, true)

/-- The `{success, count}` result of `loadGraphToKuzu`. -/
structure LoadResult where
  success : Bool
  count : Nat
deriving DecidableEq

/-- Oracle for one run of `loadGraphToKuzu`: whether lazy initialization
succeeds, whether each fallible step inside the `try` block succeeds, and the
row returned by the verification count query (`none` when `getNext` yields no
row).  The two unlink flags model the stale-file and cleanup `fs.unlink`
calls, whose failures the source swallows with inner `try {} catch {}`. -/
structure LoadEnv where
  initOk : Bool
  staleUnlinkFails : Bool
  serializeOk : Bool
  writeNodesOk : Bool
  writeEdgesOk : Bool
  copyNodesOk : Bool
  copyEdgesOk : Bool
  verifyQueryOk : Bool
  verifyRow : Option Nat
  cleanupUnlinkFails : Bool

/-- The body of the `try` block of `loadGraphToKuzu`: CSV serialization,
staging-file writes, the two COPY statements, and the verification count
query, in source order; the first failing step throws.  The swallowed unlink
failures do not affect the outcome. -/
def loadAttempt (e : LoadEnv) : Except Unit LoadResult :=
  if e.serializeOk = false then Except.error ()
  else if e.writeNodesOk = false then Except.error ()
  else if e.writeEdgesOk = false then Except.error ()
  else if e.copyNodesOk = false then Except.error ()
  else if e.copyEdgesOk = false then Except.error ()
  else if e.verifyQueryOk = false then Except.error ()
  else Except.ok { success := true, count := e.verifyRow.getD 0 }

/-- `loadGraphToKuzu` from kuzu-adapter.ts.  `await initKuzu()` is executed
before the `try` block, so an initialization failure propagates; every
failure inside the `try` is caught and converted to `{success:false,
count:0}`. -/
def loadGraphToKuzu (e : LoadEnv) : Except Unit LoadResult :=
  if e.initOk = false then Except.error ()
  else
    Except.ok
      (match loadAttempt e with
       | Except.ok r => r
       | Except.error _ => { success := false, count := 0 })

/-- The module-level handles of kuzu-adapter.ts: `kuzu`, `db`, `conn`, each
either `null` (`false`) or held (`true`). -/
structure AdapterState where
  kuzuLoaded : Bool
  dbOpen : Bool
  connOpen : Bool
deriving DecidableEq

/-- `initKuzu` at the state level (success case): `if (conn) return` makes it
a no-op when a connection is held; otherwise it loads the module and creates
the database and connection. -/
def initKuzu (s : AdapterState) : AdapterState :=
  if s.connOpen then s else { kuzuLoaded := true, dbOpen := true, connOpen := true }

/-- State effect of `executeQuery`: `if (!conn) await initKuzu()`. -/
def executeQueryState (s : AdapterState) : AdapterState :=
  if s.connOpen then s else initKuzu s

/-- State effect of `executePrepared`: `if (!conn) await initKuzu()`. -/
def executePreparedState (s : AdapterState) : AdapterState :=
  if s.connOpen then s else initKuzu s

/-- State effect of `executeWithReusedStatement`:
`if (!conn) await initKuzu()`. -/
def executeBatchedState (s : AdapterState) : AdapterState :=
  if s.connOpen then s else initKuzu s

/-- State effect of `loadGraphToKuzu`: it calls `await initKuzu()`
unconditionally (which itself is a no-op on a held connection). -/
def loadGraphState (s : AdapterState) : AdapterState :=
  initKuzu s

/-- The `{nodes, edges}` statistics record. -/
structure KuzuStats where
  nodes : Nat
  edges : Nat
deriving DecidableEq

/-- `getKuzuStats` from kuzu-adapter.ts: `if (!conn) return {nodes:0,
edges:0}` — it does NOT call `initKuzu`; otherwise it runs the two count
queries (their result is the oracle `counts`).  Returns the unchanged state
and the statistics. -/
def getKuzuStatsState (s : AdapterState) (counts : KuzuStats) :
    AdapterState × KuzuStats :=
  if s.connOpen then (s, counts) else (s, { nodes := 0, edges := 0 })

/-- `isKuzuReady` from kuzu-adapter.ts: `conn !== null && db !== null`; it
performs no initialization. -/
def isKuzuReady (s : AdapterState) : Bool :=
  s.connOpen && s.dbOpen

/-! ## Batched Statement Executor (kuzu-adapter.ts, executeWithReusedStatement) -/

/-- Observable engine-facing events of one run of
`executeWithReusedStatement`: statement preparation, one execution per
parameter set (parameter sets abstracted as `Nat` identifiers), statement
release, and the cooperative `setTimeout(0)` yield. -/
inductive BatchEvent
  | prepare
  | exec (p : Nat)
  | close
  | yieldTick
deriving DecidableEq

/-- `executeWithReusedStatement` from kuzu-adapter.ts as its event trace
(success case: every preparation succeeds and every execution returns).  The
source loops `i += SUB_BATCH_SIZE` (`SUB_BATCH_SIZE = 4`) over
`paramsList.slice(i, i + 4)`, preparing a fresh statement, executing each
parameter set of the sub-batch in order, closing the statement (in a
`finally`), and yielding one tick when `i + 4 < paramsList.length`; this is
rendered as structural recursion peeling at most 4 parameters per iteration,
with `rest = []` exactly when `i + 4 < paramsList.length` fails. -/
def executeWithReusedStatement : List Nat → List BatchEvent
  | [] => []
  | [a] => [BatchEvent.prepare, BatchEvent.exec a, BatchEvent.close]
  | [a, b] =>
    [BatchEvent.prepare, BatchEvent.exec a, BatchEvent.exec b, BatchEvent.close]
  | [a, b, c] =>
    [BatchEvent.prepare, BatchEvent.exec a, BatchEvent.exec b,
     BatchEvent.exec c, BatchEvent.close]
  | a :: b :: c :: d :: rest =>
    BatchEvent.prepare :: BatchEvent.exec a :: BatchEvent.exec b ::
      BatchEvent.exec c :: BatchEvent.exec d :: BatchEvent.close ::
      (if rest = [] then []
       else BatchEvent.yieldTick :: executeWithReusedStatement rest)

/-- Number of `prepare` events in a trace. -/
def countPrepares : List BatchEvent → Nat
  | [] => 0
  | BatchEvent.prepare :: t => countPrepares t + 1
  | _ :: t => countPrepares t

/-- Number of `close` events in a trace. -/
def countCloses : List BatchEvent → Nat
  | [] => 0
  | BatchEvent.close :: t => countCloses t + 1
  | _ :: t => countCloses t

/-- Number of `yieldTick` events in a trace. -/
def countYields : List BatchEvent → Nat
  | [] => 0
  | BatchEvent.yieldTick :: t => countYields t + 1
  | _ :: t => countYields t

/-- The sequence of executed parameter sets of a trace, in order. -/
def execsOf : List BatchEvent → List Nat
  | [] => []
  | BatchEvent.exec p :: t => p :: execsOf t
  | _ :: t => execsOf t

/-! ## Semantic search entry points (src/workers/ingestion.worker.ts) -/

/-- The message `'Database not ready. Please load a repository first.'`. -/
def dbNotReadyMsg : List Nat :=
  [68, 97, 116, 97, 98, 97, 115, 101, 32, 110, 111, 116, 32, 114, 101, 97,
   100, 121, 46, 32, 80, 108, 101, 97, 115, 101, 32, 108, 111, 97, 100, 32,
   97, 32, 114, 101, 112, 111, 115, 105, 116, 111, 114, 121, 32, 102, 105,
   114, 115, 116, 46]

/-- The message
`'Embeddings not ready. Please wait for embedding pipeline to complete.'`. -/
def embeddingsNotReadyMsg : List Nat :=
  [69, 109, 98, 101, 100, 100, 105, 110, 103, 115, 32, 110, 111, 116, 32,
   114, 101, 97, 100, 121, 46, 32, 80, 108, 101, 97, 115, 101, 32, 119, 97,
   105, 116, 32, 102, 111, 114, 32, 101, 109, 98, 101, 100, 100, 105, 110,
   103, 32, 112, 105, 112, 101, 108, 105, 110, 101, 32, 116, 111, 32, 99,
   111, 109, 112, 108, 101, 116, 101, 46]

/-- `semanticSearch` from ingestion.worker.ts.  `ready` is
`kuzu.isKuzuReady()`, `embeddingComplete` is the worker's
`isEmbeddingComplete` flag, and `delegateResults` abstracts the value
returned by the embedding collaborator `doSemanticSearch` when both guards
pass.  Thrown errors are `Except.error` carrying the message. -/
def semanticSearch (ready embeddingComplete : Bool) (delegateResults : List Nat) :
    Except (List Nat) (List Nat) :=
  if ready = false then Except.error dbNotReadyMsg
  else if embeddingComplete = false then Except.error embeddingsNotReadyMsg
  else Except.ok delegateResults

/-- `semanticSearchWithContext` from ingestion.worker.ts: the same two guards
in the same order, then delegation to `doSemanticSearchWithContext`. -/
def semanticSearchWithContext (ready embeddingComplete : Bool)
    (delegateResults : List Nat) : Except (List Nat) (List Nat) :=
  if ready = false then Except.error dbNotReadyMsg
  else if embeddingComplete = false then Except.error embeddingsNotReadyMsg
  else Except.ok delegateResults

/-! ## Concrete inputs used by witnesses and counterexamples -/

/-- A `Function` node at lines 0-1 of file `'a.py'` (witness for C5). -/
def nodeW5 : GraphNode :=
  { id := [102, 49], label := NodeLabel.Function, name := some [102],
    filePath := some [97, 46, 112, 121], startLine := some 0,
    endLine := some 1 }

/-- The content `'def f():\n  pass\nrest'` of `'a.py'` (witness for C5). -/
def contentW5 : List Nat :=
  [100, 101, 102, 32, 102, 40, 41, 58, 10, 32, 32, 112, 97, 115, 115, 10,
   114, 101, 115, 116]

/-- File-contents mapping holding only `'a.py'` (witness for C5). -/
def fcW5 : List Nat → Option (List Nat) :=
  fun p => if p = [97, 46, 112, 121] then some contentW5 else none

/-- A `Function` node with no `startLine`/`endLine` whose file `'b.bin'`
holds binary-looking content (counterexample for C5). -/
def nodeC5 : GraphNode :=
  { id := [103, 49], label := NodeLabel.Function, name := none,
    filePath := some [98, 46, 98, 105, 110], startLine := none,
    endLine := none }

/-- File-contents mapping: `'b.bin'` holds one NUL code unit, which
`isBinaryContent` classifies as binary (1 of 1 sampled characters is a
control character). -/
def fcC5 : List Nat → Option (List Nat) :=
  fun p => if p = [98, 46, 98, 105, 110] then some [0] else none

/-- A `Class` node with line bounds present whose file `'b.bin'` holds
binary-looking content (witness for C10). -/
def nodeW10 : GraphNode :=
  { id := [103, 49], label := NodeLabel.Class, name := none,
    filePath := some [98, 46, 98, 105, 110], startLine := some 3,
    endLine := some 9 }

/-! ## Helper lemmas -/

/-- The rational test of `isBinaryContent` is equivalent to the integer test
`10 * nonPrintable > sample.length`, which kernel evaluation can decide. -/
theorem isBinaryContent_eq (content : List Nat) :
    isBinaryContent content =
      decide ((content.take 1000).length <
        10 * ((content.take 1000).filter isNonPrintable).length) := by
  by_cases h : content.length = 0
  · rw [List.length_eq_zero] at h
    subst h
    rfl
  · unfold isBinaryContent
    rw [if_neg h]
    rw [decide_eq_decide]
    have hlen : 0 < (content.take 1000).length := by
      rw [List.length_take]
      have : 0 < content.length := Nat.pos_of_ne_zero h
      omega
    have hlenQ : (0 : ℚ) < ((content.take 1000).length : ℚ) := by
      exact_mod_cast hlen
    rw [gt_iff_lt, div_lt_div_iff₀ (by norm_num) hlenQ]
    rw [one_mul]
    constructor
    · intro hq
      have h' : ((content.take 1000).length : ℚ) <
          ((((content.take 1000).filter isNonPrintable).length * 10 : Nat) : ℚ) := by
        push_cast
        linarith
      have hn := Nat.cast_lt.mp h'
      omega
    · intro hn
      have h' : ((content.take 1000).length : ℚ) <
          ((((content.take 1000).filter isNonPrintable).length * 10 : Nat) : ℚ) := by
        exact_mod_cast (by omega : (content.take 1000).length <
          ((content.take 1000).filter isNonPrintable).length * 10)
      push_cast at h'
      linarith

/-- Unfolding `unquoteRFC4180` on an ordinary (non-quote) leading code
unit. -/
theorem unquote_cons_ne (c : Nat) (rest : List Nat) (hc : ¬c = 34) :
    unquoteRFC4180 (c :: rest) = (unquoteRFC4180 rest).map (fun l => c :: l) := by
  rw [unquoteRFC4180.eq_def]
  simp only [if_neg hc]

/-- Unfolding `unquoteRFC4180` on a doubled quote. -/
theorem unquote_dquote (rest2 : List Nat) :
    unquoteRFC4180 (34 :: 34 :: rest2) =
      (unquoteRFC4180 rest2).map (fun l => 34 :: l) := rfl

/-- Reading back an escaped field body followed by the closing quote with the
RFC 4180 quoted-field grammar recovers the body exactly. -/
theorem unquote_escape (l : List Nat) :
    unquoteRFC4180 (escapeQuotesDoubled l ++ [34]) = some l := by
  induction l with
  | nil => rfl
  | cons c t ih =>
    by_cases hc : c = 34
    · subst hc
      have h1 : escapeQuotesDoubled (34 :: t) ++ [34] =
          34 :: 34 :: (escapeQuotesDoubled t ++ [34]) := by
        simp [escapeQuotesDoubled]
      rw [h1, unquote_dquote, ih]
      rfl
    · have h1 : escapeQuotesDoubled (c :: t) ++ [34] =
          c :: (escapeQuotesDoubled t ++ [34]) := by
        simp [escapeQuotesDoubled, if_neg hc]
      rw [h1, unquote_cons_ne c _ hc, ih]
      rfl

/-! ## Claims -/

/-- Claim C1: for every string `s`, `escapeCSVField` yields a field wrapped
in double quotes with embedded double quotes doubled, a standard RFC 4180
parser recovers exactly `sanitizeUTF8 s` from it, and absent values
serialize to the empty quoted field `'""'` (which parses back to the empty
string).  This holds for all strings, including those with commas, quotes or
embedded newlines. -/
theorem claim1 (s : List Nat) :
    parseCSVField (escapeCSVField (some s)) = some (sanitizeUTF8 s) ∧
    parseCSVField (escapeCSVField none) = some [] ∧
    escapeCSVField none = [34, 34] ∧
    (escapeCSVField (some s)).head? = some 34 ∧
    (escapeCSVField (some s)).getLast? = some 34 := by
  refine ⟨?_, rfl, rfl, rfl, ?_⟩
  · show parseCSVField (34 :: (escapeQuotesDoubled (sanitizeUTF8 s) ++ [34])) = _
    simp [parseCSVField, unquote_escape]
  · show (34 :: (escapeQuotesDoubled (sanitizeUTF8 s) ++ [34])).getLast? = some 34
    rw [show (34 :: (escapeQuotesDoubled (sanitizeUTF8 s) ++ [34])) =
      (34 :: escapeQuotesDoubled (sanitizeUTF8 s)) ++ [34] from by simp]
    exact List.getLast?_concat _

/-- Claim C4, counterexample: the well-formed surrogate pair
`U+D83D U+DE00` (the astral-plane character `'😀'`) is removed by
`sanitizeUTF8`, not preserved unchanged as the claim states. -/
theorem claim4_counterexample :
    sanitizeUTF8 [55357, 56832] = [] ∧
    sanitizeUTF8 [55357, 56832] ≠ [55357, 56832] := by
  decide

/-- Claim C4 as amended: `sanitizeUTF8` removes exactly the control
characters other than tab/newline/carriage return, ALL surrogate code units
— lone ones and both halves of well-formed surrogate pairs alike — and the
two code points `U+FFFE`/`U+FFFF`; every other code unit is preserved in
order. -/
theorem claim4_amended (s : List Nat) :
    sanitizeUTF8 s = s.filter (fun c => !removedBySanitize c) ∧
    ∀ c, c ∈ sanitizeUTF8 s ↔ c ∈ s ∧ removedBySanitize c = false := by
  have hfilter : sanitizeUTF8 s = s.filter (fun c => !removedBySanitize c) := by
    unfold sanitizeUTF8
    rw [List.filter_filter, List.filter_filter]
    apply List.filter_congr
    intro c _
    simp only [removedBySanitize]
    cases isStrippedControl c <;> cases isSurrogateCodeUnit c <;>
      cases isNoncharFFFE c <;> rfl
  refine ⟨hfilter, fun c => ?_⟩
  rw [hfilter, List.mem_filter]
  simp

/-- Claim C6: `isBinaryContent` returns true iff, among the first
`min(1000, length)` code units, the number of code units with codes in 0-8,
14-31 or equal to 127 is strictly greater than 10% of the sample's length;
in particular it returns false on empty input, and false whenever the sample
has no such control characters. -/
theorem claim6 (content : List Nat) :
    (isBinaryContent content = true ↔
      10 * ((content.take 1000).filter isNonPrintable).length >
        (content.take 1000).length) ∧
    isBinaryContent [] = false ∧
    (((content.take 1000).filter isNonPrintable).length = 0 →
      isBinaryContent content = false) := by
  have hmain : isBinaryContent content = true ↔
      10 * ((content.take 1000).filter isNonPrintable).length >
        (content.take 1000).length := by
    rw [isBinaryContent_eq]
    simp [gt_iff_lt, Nat.mul_comm]
  refine ⟨hmain, rfl, fun h0 => ?_⟩
  rw [Bool.eq_false_iff]
  intro htrue
  rw [hmain] at htrue
  omega

/-- The result of `truncateWithMarker limit` is never longer than the limit
plus the marker. -/
theorem truncateWithMarker_length_le (limit : Nat) (s : List Nat) :
    (truncateWithMarker limit s).length ≤ limit + truncationMarker.length := by
  unfold truncateWithMarker
  split
  · simp only [List.length_append, List.length_take]
    omega
  · next h => omega

/-- A slice of the one-line split of the empty file joins back to the empty
string. -/
theorem joinNL_sub_singleton_nil (n m : Nat) :
    joinNL ((List.take n [([] : List Nat)]).drop m) = [] := by
  cases n with
  | zero => cases m <;> rfl
  | succ k => cases m <;> simp [joinNL]

/-- The spec-side snippet of an empty file content is empty, whatever the
line bounds. -/
theorem snippetSpec_nil (sl el : Int) : snippetSpec [] sl el = [] := by
  show joinNL (jsSlice (splitNL []) _ _) = []
  show joinNL (jsSlice [[]] _ _) = []
  unfold jsSlice
  exact joinNL_sub_singleton_nil _ _

/-- `isBinaryContent` is false on the empty string (early return). -/
theorem isBinaryContent_nil : isBinaryContent [] = false := rfl

/-- Claim C5, counterexample: a `Function` node (neither `File` nor `Folder`)
whose file content is present but classified binary, and whose `startLine`
and `endLine` are missing, yields the binary placeholder — not the empty
string the claim requires for missing line bounds.  The binary check sits
before the line-bounds check in `extractContent`. -/
theorem claim5_counterexample :
    extractContent nodeC5 fcC5 = binaryPlaceholder ∧
    extractContent nodeC5 fcC5 ≠ [] := by
  have hBin : isBinaryContent [0] = true := by
    rw [isBinaryContent_eq]
    decide
  have hsome : nodeC5.filePath.bind fcC5 = some [0] := by decide
  have h : extractContent nodeC5 fcC5 = binaryPlaceholder := by
    unfold extractContent
    rw [hsome]
    simp [hBin, nodeC5]
  refine ⟨h, ?_⟩
  rw [h]
  decide

/-- Claim C5 as amended (the binary-content override of C10 forces the extra
hypothesis that the content is not classified binary): for every node whose
label is neither `File` nor `Folder`, whose file content is present and not
classified binary — if `startLine` or `endLine` is missing the extracted
content is empty; otherwise it is the file's lines from `startLine-2`
through `endLine+2` clamped to the file's line bounds, joined by newlines
and truncated to 5000 characters with the marker appended when longer; and
in all cases the result is at most `5000 + truncationMarker.length` long. -/
theorem claim5_amended (node : GraphNode) (fc : List Nat → Option (List Nat))
    (content : List Nat)
    (hFile : node.label ≠ NodeLabel.File) (hFolder : node.label ≠ NodeLabel.Folder)
    (hContent : node.filePath.bind fc = some content)
    (hBin : isBinaryContent content = false) :
    (node.startLine = none ∨ node.endLine = none → extractContent node fc = []) ∧
    (∀ sl el, node.startLine = some sl → node.endLine = some el →
      extractContent node fc = truncateWithMarker 5000 (snippetSpec content sl el)) ∧
    (extractContent node fc).length ≤ 5000 + truncationMarker.length := by
  have hext : extractContent node fc =
      (match node.startLine, node.endLine with
       | some sl, some el => truncateWithMarker 5000 (snippetSpec content sl el)
       | _, _ => []) := by
    by_cases hE : content = []
    · subst hE
      unfold extractContent
      rw [hContent]
      dsimp only
      simp only [if_pos rfl]
      cases hS : node.startLine <;> cases hT : node.endLine <;>
        simp [snippetSpec_nil, truncateWithMarker]
    · unfold extractContent
      rw [hContent]
      dsimp only
      rw [if_neg hE, if_neg hFolder]
      rw [hBin]
      simp only [Bool.false_eq_true, if_false]
      rw [if_neg hFile]
      cases hS : node.startLine <;> cases hT : node.endLine <;>
        rfl
  refine ⟨?_, ?_, ?_⟩
  · intro hnone
    rw [hext]
    rcases hnone with h | h
    · rw [h]
    · rw [h]
      cases node.startLine <;> rfl
  · intro sl el hS hT
    rw [hext, hS, hT]
  · rw [hext]
    cases node.startLine <;> cases node.endLine <;>
      first
        | exact Nat.zero_le _
        | exact truncateWithMarker_length_le 5000 _

/-- Witness for claim C5: the `Function` node `nodeW5` at lines 0-1 of the
20-character, 3-line file `'a.py'` extracts the whole file (the 2-line
context padding clamps to the file bounds) and respects the length bound. -/
theorem claim5_witness :
    extractContent nodeW5 fcW5 = contentW5 ∧
    (extractContent nodeW5 fcW5).length ≤ 5000 + truncationMarker.length := by
  have h := claim5_amended nodeW5 fcW5 contentW5 (by decide) (by decide)
    (by decide) (by rw [isBinaryContent_eq]; decide)
  refine ⟨?_, h.2.2⟩
  have h2 := h.2.1 0 1 rfl rfl
  rw [h2]
  decide

/-- Claim C10: for every node whose label is not `Folder`, whose file content
is present and classified binary by the heuristic, `extractContent` returns
the fixed placeholder `'[Binary file - content not stored]'` — whatever the
label (`File`, `Function`, `Class`, ...) and even when `startLine` and
`endLine` are present, because the binary check precedes both the `File`
branch and the line-extraction branch. -/
theorem claim10 (node : GraphNode) (fc : List Nat → Option (List Nat))
    (content : List Nat)
    (hFolder : node.label ≠ NodeLabel.Folder)
    (hContent : node.filePath.bind fc = some content)
    (hBin : isBinaryContent content = true) :
    extractContent node fc = binaryPlaceholder := by
  have hne : content ≠ [] := by
    intro h
    rw [h, isBinaryContent_nil] at hBin
    exact Bool.false_ne_true hBin
  unfold extractContent
  rw [hContent]
  dsimp only
  rw [if_neg hne, if_neg hFolder]
  rw [hBin]
  simp

/-- Witness for claim C10: a `Class` node with line bounds present, whose
file `'b.bin'` holds binary-looking content, extracts the placeholder. -/
theorem claim10_witness :
    extractContent nodeW10 fcC5 = binaryPlaceholder :=
  claim10 nodeW10 fcC5 [0] (by decide) (by decide)
    (by rw [isBinaryContent_eq]; decide)

/-- A nonempty parameter list yields a nonempty trace. -/
theorem executeWithReusedStatement_ne_nil :
    ∀ (ps : List Nat), ps ≠ [] → executeWithReusedStatement ps ≠ []
  | [a], _ => by simp [executeWithReusedStatement]
  | [a, b], _ => by simp [executeWithReusedStatement]
  | [a, b, c], _ => by simp [executeWithReusedStatement]
  | a :: b :: c :: d :: rest, _ => by simp [executeWithReusedStatement]

/-- For a nonempty parameter list the last trace event is the release of the
final sub-batch's statement — in particular there is no yield after the last
sub-batch. -/
theorem executeWithReusedStatement_getLast :
    ∀ (ps : List Nat), ps ≠ [] →
      (executeWithReusedStatement ps).getLast? = some BatchEvent.close
  | [a], _ => rfl
  | [a, b], _ => rfl
  | [a, b, c], _ => rfl
  | a :: b :: c :: d :: rest, _ => by
    by_cases hr : rest = []
    · subst hr
      rfl
    · have ih := executeWithReusedStatement_getLast rest hr
      have hne := executeWithReusedStatement_ne_nil rest hr
      show (BatchEvent.prepare :: BatchEvent.exec a :: BatchEvent.exec b ::
        BatchEvent.exec c :: BatchEvent.exec d :: BatchEvent.close ::
        (if rest = [] then []
         else BatchEvent.yieldTick :: executeWithReusedStatement rest)).getLast? =
        some BatchEvent.close
      rw [if_neg hr]
      rw [show (BatchEvent.prepare :: BatchEvent.exec a :: BatchEvent.exec b ::
        BatchEvent.exec c :: BatchEvent.exec d :: BatchEvent.close ::
        BatchEvent.yieldTick :: executeWithReusedStatement rest) =
        ([BatchEvent.prepare, BatchEvent.exec a, BatchEvent.exec b,
          BatchEvent.exec c, BatchEvent.exec d, BatchEvent.close,
          BatchEvent.yieldTick] ++ executeWithReusedStatement rest) from rfl]
      rw [List.getLast?_append_of_ne_nil _ hne]
      exact ih

/-- Trace structure of the batched executor: the executed parameter sets are
exactly the input in order, and the numbers of preparations, releases and
yields are those of the 4-element sub-batch partition. -/
theorem executeWithReusedStatement_counts :
    ∀ (ps : List Nat),
      execsOf (executeWithReusedStatement ps) = ps ∧
      countPrepares (executeWithReusedStatement ps) = (ps.length + 3) / 4 ∧
      countCloses (executeWithReusedStatement ps) = (ps.length + 3) / 4 ∧
      countYields (executeWithReusedStatement ps) = (ps.length + 3) / 4 - 1
  | [] => by
    refine ⟨?_, ?_, ?_, ?_⟩ <;>
      simp [executeWithReusedStatement, execsOf, countPrepares, countCloses,
        countYields]
  | [a] => by
    refine ⟨?_, ?_, ?_, ?_⟩ <;>
      simp [executeWithReusedStatement, execsOf, countPrepares, countCloses,
        countYields]
  | [a, b] => by
    refine ⟨?_, ?_, ?_, ?_⟩ <;>
      simp [executeWithReusedStatement, execsOf, countPrepares, countCloses,
        countYields]
  | [a, b, c] => by
    refine ⟨?_, ?_, ?_, ?_⟩ <;>
      simp [executeWithReusedStatement, execsOf, countPrepares, countCloses,
        countYields]
  | a :: b :: c :: d :: rest => by
    obtain ⟨ih1, ih2, ih3, ih4⟩ := executeWithReusedStatement_counts rest
    by_cases hr : rest = []
    · subst hr
      refine ⟨?_, ?_, ?_, ?_⟩ <;>
        simp [executeWithReusedStatement, execsOf, countPrepares, countCloses,
          countYields]
    · have hlen : 0 < rest.length := List.length_pos.mpr hr
      refine ⟨?_, ?_, ?_, ?_⟩ <;>
        simp only [executeWithReusedStatement, if_neg hr, execsOf,
          countPrepares, countCloses, countYields, List.length_cons,
          ih1, ih2, ih3, ih4] <;>
        omega

/-- Claim C7: `executeWithReusedStatement` is a no-op on an empty parameter
list; for every list it executes the parameter sets sequentially in input
order, prepares (and releases) exactly one fresh statement per sub-batch of
4 — `ceil(n/4)` preparation cycles — yields exactly once between consecutive
sub-batches, never ends on a yield, and on a 10-element list produces
exactly the trace with 3 preparation cycles of sizes 4, 4 and 2. -/
theorem claim7 (ps : List Nat) :
    executeWithReusedStatement [] = [] ∧
    execsOf (executeWithReusedStatement ps) = ps ∧
    countPrepares (executeWithReusedStatement ps) = (ps.length + 3) / 4 ∧
    countCloses (executeWithReusedStatement ps) = (ps.length + 3) / 4 ∧
    countYields (executeWithReusedStatement ps) = (ps.length + 3) / 4 - 1 ∧
    (executeWithReusedStatement ps).getLast? ≠ some BatchEvent.yieldTick ∧
    executeWithReusedStatement [1, 2, 3, 4, 5, 6, 7, 8, 9, 10] =
      [BatchEvent.prepare, BatchEvent.exec 1, BatchEvent.exec 2,
       BatchEvent.exec 3, BatchEvent.exec 4, BatchEvent.close,
       BatchEvent.yieldTick,
       BatchEvent.prepare, BatchEvent.exec 5, BatchEvent.exec 6,
       BatchEvent.exec 7, BatchEvent.exec 8, BatchEvent.close,
       BatchEvent.yieldTick,
       BatchEvent.prepare, BatchEvent.exec 9, BatchEvent.exec 10,
       BatchEvent.close] := by
  obtain ⟨h1, h2, h3, h4⟩ := executeWithReusedStatement_counts ps
  refine ⟨rfl, h1, h2, h3, h4, ?_, by decide⟩
  by_cases hps : ps = []
  · subst hps
    simp [executeWithReusedStatement]
  · rw [executeWithReusedStatement_getLast ps hps]
    simp

/-- Claim C2 (code bug): with a successful preparation
(`isSuccess = true`) and an execution (or result-draining) step that raises,
`executePrepared` propagates the error WITHOUT releasing the prepared
statement — `stmt.close()` sits after the draining loop with no `finally`,
so it is reached only on the full success path. -/
theorem claim2_bug :
    (executePrepared { isSuccess := true, errorMessage := [] }
        (ExecOutcome.raise [101])).2 = false ∧
    (executePrepared { isSuccess := true, errorMessage := [] }
        (ExecOutcome.raise [101])).1 = Except.error [101] ∧
    (executePrepared { isSuccess := true, errorMessage := [] }
        (ExecOutcome.ok [])).2 = true := by
  refine ⟨rfl, rfl, rfl⟩

/-- Claim C3, counterexample: when lazy initialization fails (`initKuzu`
raises), `loadGraphToKuzu` raises to its caller instead of returning
`{success:false, count:0}` — the `await initKuzu()` call sits before the
`try` block. -/
theorem claim3_counterexample :
    loadGraphToKuzu
      { initOk := false, staleUnlinkFails := false, serializeOk := true,
        writeNodesOk := true, writeEdgesOk := true, copyNodesOk := true,
        copyEdgesOk := true, verifyQueryOk := true, verifyRow := some 3,
        cleanupUnlinkFails := false } = Except.error () := rfl

/-- Claim C3 as amended: once lazy initialization succeeds, `loadGraphToKuzu`
never raises — every failure among serialization, staging-file writes, COPY
statements and the verification query yields `{success:false, count:0}`, and
on success it returns `{success:true, count:N}` with `N` the count observed
by the verification query (0 when the query returns no row); but an
initialization failure itself propagates to the caller. -/
theorem claim3_amended (e : LoadEnv) :
    loadGraphToKuzu e =
      (if e.initOk = false then Except.error ()
       else Except.ok
         (if e.serializeOk && e.writeNodesOk && e.writeEdgesOk &&
             e.copyNodesOk && e.copyEdgesOk && e.verifyQueryOk then
            { success := true, count := e.verifyRow.getD 0 }
          else { success := false, count := 0 })) := by
  obtain ⟨i, su, sz, wn, we, cn, ce, vq, vr, cu⟩ := e
  cases i <;> cases sz <;> cases wn <;> cases we <;> cases cn <;>
    cases ce <;> cases vq <;> rfl

/-- Claim C8, counterexample: calling `getKuzuStats` in the uninitialized
state does not trigger initialization (the state is unchanged, no connection
is created) and does not behave as if initialized — it returns `{nodes:0,
edges:0}` instead of the counts an initialized adapter would report. -/
theorem claim8_counterexample :
    (getKuzuStatsState { kuzuLoaded := false, dbOpen := false, connOpen := false }
        { nodes := 5, edges := 7 }).1 =
      { kuzuLoaded := false, dbOpen := false, connOpen := false } ∧
    (getKuzuStatsState { kuzuLoaded := false, dbOpen := false, connOpen := false }
        { nodes := 5, edges := 7 }).2 = { nodes := 0, edges := 0 } := by
  refine ⟨rfl, rfl⟩

/-- Claim C8 as amended: bulk load, ad hoc query, prepared execution and
batched execution do trigger lazy initialization — after any of these calls
a connection is held, and started from any uninitialized state (no
connection) they leave the fully initialized state, so they behave as if the
adapter had already been initialized.  The statistics operation, however,
returns `{nodes:0, edges:0}` without initializing when no connection is
held, and the readiness check merely reports `false` without initializing. -/
theorem claim8_amended (s : AdapterState) (counts : KuzuStats) (k d : Bool) :
    (executeQueryState s).connOpen = true ∧
    (executePreparedState s).connOpen = true ∧
    (executeBatchedState s).connOpen = true ∧
    (loadGraphState s).connOpen = true ∧
    executeQueryState { kuzuLoaded := k, dbOpen := d, connOpen := false } =
      { kuzuLoaded := true, dbOpen := true, connOpen := true } ∧
    executePreparedState { kuzuLoaded := k, dbOpen := d, connOpen := false } =
      { kuzuLoaded := true, dbOpen := true, connOpen := true } ∧
    executeBatchedState { kuzuLoaded := k, dbOpen := d, connOpen := false } =
      { kuzuLoaded := true, dbOpen := true, connOpen := true } ∧
    loadGraphState { kuzuLoaded := k, dbOpen := d, connOpen := false } =
      { kuzuLoaded := true, dbOpen := true, connOpen := true } ∧
    getKuzuStatsState { kuzuLoaded := k, dbOpen := d, connOpen := false } counts =
      ({ kuzuLoaded := k, dbOpen := d, connOpen := false },
       { nodes := 0, edges := 0 }) ∧
    isKuzuReady { kuzuLoaded := k, dbOpen := d, connOpen := false } = false := by
  have hinit : (initKuzu s).connOpen = true := by
    unfold initKuzu
    by_cases hc : s.connOpen
    · rw [if_pos hc]
      exact hc
    · rw [if_neg hc]
  have hop : (if s.connOpen then s else initKuzu s).connOpen = true := by
    by_cases hc : s.connOpen
    · rw [if_pos hc]
      exact hc
    · rw [if_neg hc]
      exact hinit
  refine ⟨hop, hop, hop, hinit, ?_, ?_, ?_, ?_, ?_, ?_⟩
  all_goals rfl

/-- Claim C9: every call to `semanticSearch` or `semanticSearchWithContext`
made while the engine is not ready, or while the embedding phase has not
completed, fails with the corresponding explicit nonempty error message and
never returns a (possibly empty) result sequence. -/
theorem claim9 (emb : Bool) (res : List Nat) :
    semanticSearch false emb res = Except.error dbNotReadyMsg ∧
    semanticSearch true false res = Except.error embeddingsNotReadyMsg ∧
    semanticSearchWithContext false emb res = Except.error dbNotReadyMsg ∧
    semanticSearchWithContext true false res = Except.error embeddingsNotReadyMsg ∧
    dbNotReadyMsg ≠ [] ∧
    embeddingsNotReadyMsg ≠ [] ∧
    (∀ r, semanticSearch false emb res ≠ Except.ok r) ∧
    (∀ r, semanticSearch true false res ≠ Except.ok r) ∧
    (∀ r, semanticSearchWithContext false emb res ≠ Except.ok r) ∧
    (∀ r, semanticSearchWithContext true false res ≠ Except.ok r) := by
  refine ⟨rfl, rfl, rfl, rfl, by decide, by decide, ?_, ?_, ?_, ?_⟩ <;>
    intro r h <;> exact Except.noConfusion h

end GitNexus
